import Mathlib

/-!
Verification development for the Geometry Dash Caching Framework (gdcf).

Shallow embedding of the parts of the code the claims concern:
  * the request model and its manual `Hash` implementations
    (`src/gdcf/src/api/request/level.rs`),
  * the domain model and the `Upgradable` relation turning a
    `PartialLevel<Song, User>` into a `Level<Song, User>`
    (`src/gdcf/src/upgrade/level.rs`),
  * the process-request future state machine (`src/gdcf/src/future/process.rs`),
  * the pagination stream and the integrity pass (`src/gdcf/src/lib.rs`),
  * the level password parser (`src/gdcf_parse/src/level.rs`).

Machine integers carry no arithmetic in the embedded code (ids and counters
are only moved around and compared), so `u64`/`u32`/`i32` fields are
represented by `Nat`/`Int` directly.
-/

/- ### Request model (src/gdcf/src/api/request/level.rs) -/

/-- Modelled from the spec: `BaseRequest` (src/gdcf/src/api/request/mod.rs is
not in src/). Per §3.1 a base carries game-version, client-version and the
secret. Its contents never reach the hasher, so the exact fields are
irrelevant to every claim below. -/
structure BaseRequest where
  game_version : Nat
  binary_version : Nat
  secret : String
deriving DecidableEq

def BaseRequest.default : BaseRequest := ⟨21, 33, "Wmfd2893gb7"⟩

/-- Modelled from the spec: `DemonRating` (src/gdcf/src/model/level.rs is not
in src/); a plain enum of demon difficulty ratings. -/
inductive DemonRating where
  | Easy | Medium | Hard | Insane | Extreme
deriving DecidableEq

/-- Modelled from the spec: `LevelRating` (src/gdcf/src/model/level.rs is not
in src/); a level rating, the demon variant nesting a `DemonRating`. -/
inductive LevelRating where
  | NotAvailable | Auto | Easy | Normal | Hard | Harder | Insane
  | Demon (rating : DemonRating)
deriving DecidableEq

/-- Modelled from the spec: `LevelLength` (src/gdcf/src/model/level.rs is not
in src/); a plain enum of level lengths. -/
inductive LevelLength where
  | Tiny | Short | Medium | Long | ExtraLong
deriving DecidableEq

/-- `SongFilter` from src/gdcf/src/api/request/level.rs: `Main(u8)` or
`Custom(u64)`. -/
inductive SongFilter where
  | Main (id : Nat)
  | Custom (id : Nat)
deriving DecidableEq

/-- `SearchFilters` from src/gdcf/src/api/request/level.rs, fields in source
order. -/
structure SearchFilters where
  uncompleted : Bool
  completed : Bool
  featured : Bool
  original : Bool
  two_player : Bool
  coins : Bool
  epic : Bool
  rated : Bool
  song : Option SongFilter
deriving DecidableEq

def SearchFilters.default : SearchFilters :=
  ⟨false, false, false, false, false, false, false, false, none⟩

def SearchFilters.custom_song (f : SearchFilters) (id : Nat) : SearchFilters :=
  { f with song := some (SongFilter.Custom id) }

/-- `LevelRequestType` from src/gdcf/src/api/request/level.rs, variants in
source order. -/
inductive LevelRequestType where
  | Search | MostDownloaded | MostLiked | Trending | Recent | User
  | Featured | Magic | Unknown8 | Awarded | Followed | Friend
  | Unknown12 | Unknown13 | Unknown14 | Unknown15 | HallOfFame
deriving DecidableEq

/-- `impl Default for LevelRequestType` in the source returns `Featured`. -/
def LevelRequestType.default : LevelRequestType := LevelRequestType.Featured

/-- `LevelRequest` from src/gdcf/src/api/request/level.rs. -/
structure LevelRequest where
  base : BaseRequest
  level_id : Nat
  inc : Bool
  extra : Bool
deriving DecidableEq

/-- The derived `Default` of `LevelRequest` (zero id, both flags false). -/
def LevelRequest.default : LevelRequest :=
  ⟨BaseRequest.default, 0, false, false⟩

/-- `LevelsRequest` from src/gdcf/src/api/request/level.rs, fields in source
order. -/
structure LevelsRequest where
  base : BaseRequest
  request_type : LevelRequestType
  search_string : String
  lengths : List LevelLength
  ratings : List LevelRating
  demon_rating : Option DemonRating
  page : Nat
  total : Int
  search_filters : SearchFilters
deriving DecidableEq

/-- The derived `Default` of `LevelsRequest`. -/
def LevelsRequest.default : LevelsRequest :=
  ⟨BaseRequest.default, LevelRequestType.default, "", [], [], none, 0, 0,
    SearchFilters.default⟩

/-- Builder `LevelsRequest::search` (source: sets the search string and
switches the request type to `Search`). -/
def LevelsRequest.search (r : LevelsRequest) (s : String) : LevelsRequest :=
  { r with search_string := s, request_type := LevelRequestType.Search }

/-- Builder `LevelsRequest::with_id` (source: searches for the id rendered as
a string). -/
def LevelsRequest.with_id (r : LevelsRequest) (id : Nat) : LevelsRequest :=
  r.search (toString id)

/-- Builder setter `LevelsRequest::filter`. -/
def LevelsRequest.filter (r : LevelsRequest) (f : SearchFilters) : LevelsRequest :=
  { r with search_filters := f }

/- ### The data fed to the hasher by the manual Hash impls -/

/-- One call made to the `Hasher` while hashing a request. Each primitive
`Hash` impl of the standard library becomes one token carrying the value it
feeds; `disc` is the discriminant fed for an enum variant, `lenTok` the length
prefix fed for a `Vec`, `strTok` a string's bytes (with the `0xff` terminator
the standard library appends). -/
inductive HashToken where
  | u64tok (n : Nat)
  | u32tok (n : Nat)
  | u8tok (n : Nat)
  | i32tok (n : Int)
  | lenTok (n : Nat)
  | disc (n : Nat)
  | strTok (s : String)
deriving DecidableEq

def hashBool (b : Bool) : List HashToken := [HashToken.u8tok (cond b 1 0)]

def hashSongFilter : SongFilter → List HashToken
  | SongFilter.Main id => [HashToken.disc 0, HashToken.u8tok id]
  | SongFilter.Custom id => [HashToken.disc 1, HashToken.u64tok id]

def hashOptSongFilter : Option SongFilter → List HashToken
  | none => [HashToken.disc 0]
  | some sf => HashToken.disc 1 :: hashSongFilter sf

/-- `derive(Hash)` on `SearchFilters`: every field in declaration order. -/
def hashSearchFilters (f : SearchFilters) : List HashToken :=
  hashBool f.uncompleted ++ hashBool f.completed ++ hashBool f.featured ++
  hashBool f.original ++ hashBool f.two_player ++ hashBool f.coins ++
  hashBool f.epic ++ hashBool f.rated ++ hashOptSongFilter f.song

def DemonRating.toDisc : DemonRating → Nat
  | DemonRating.Easy => 0
  | DemonRating.Medium => 1
  | DemonRating.Hard => 2
  | DemonRating.Insane => 3
  | DemonRating.Extreme => 4

def hashOptDemon : Option DemonRating → List HashToken
  | none => [HashToken.disc 0]
  | some d => [HashToken.disc 1, HashToken.disc d.toDisc]

def LevelRating.toDisc : LevelRating → Nat
  | LevelRating.NotAvailable => 0
  | LevelRating.Auto => 1
  | LevelRating.Easy => 2
  | LevelRating.Normal => 3
  | LevelRating.Hard => 4
  | LevelRating.Harder => 5
  | LevelRating.Insane => 6
  | LevelRating.Demon _ => 7

def hashRating : LevelRating → List HashToken
  | LevelRating.Demon d => [HashToken.disc 7, HashToken.disc d.toDisc]
  | r => [HashToken.disc r.toDisc]

def LevelLength.toDisc : LevelLength → Nat
  | LevelLength.Tiny => 0
  | LevelLength.Short => 1
  | LevelLength.Medium => 2
  | LevelLength.Long => 3
  | LevelLength.ExtraLong => 4

def hashLength (l : LevelLength) : List HashToken := [HashToken.disc l.toDisc]

/-- `Hash` for `Vec<T>`: the length, then every element. -/
def hashVec {α : Type} (enc : α → List HashToken) (xs : List α) : List HashToken :=
  HashToken.lenTok xs.length :: (xs.map enc).flatten

def LevelRequestType.toDisc : LevelRequestType → Nat
  | LevelRequestType.Search => 0
  | LevelRequestType.MostDownloaded => 1
  | LevelRequestType.MostLiked => 2
  | LevelRequestType.Trending => 3
  | LevelRequestType.Recent => 4
  | LevelRequestType.User => 5
  | LevelRequestType.Featured => 6
  | LevelRequestType.Magic => 7
  | LevelRequestType.Unknown8 => 8
  | LevelRequestType.Awarded => 9
  | LevelRequestType.Followed => 10
  | LevelRequestType.Friend => 11
  | LevelRequestType.Unknown12 => 12
  | LevelRequestType.Unknown13 => 13
  | LevelRequestType.Unknown14 => 14
  | LevelRequestType.Unknown15 => 15
  | LevelRequestType.HallOfFame => 16

/-- The data the manual `impl Hash for LevelRequest` feeds to the hasher:
`level_id`, `inc`, `extra` — and nothing else (the `base` field is skipped). -/
def levelRequestHashData (r : LevelRequest) : List HashToken :=
  HashToken.u64tok r.level_id :: (hashBool r.inc ++ hashBool r.extra)

/-- The data the manual `impl Hash for LevelsRequest` feeds to the hasher, in
the source's order: `search_filters`, `total`, `demon_rating`, `ratings`,
`lengths`, `search_string`, `request_type`, `page` — the `base` field is
skipped. -/
def levelsRequestHashData (r : LevelsRequest) : List HashToken :=
  hashSearchFilters r.search_filters ++
  [HashToken.i32tok r.total] ++
  hashOptDemon r.demon_rating ++
  hashVec hashRating r.ratings ++
  hashVec hashLength r.lengths ++
  [HashToken.strTok r.search_string] ++
  [HashToken.disc r.request_type.toDisc] ++
  [HashToken.u32tok r.page]

/- ### Decoders for the hash data, to prove the data determines each field -/

def decBool : List HashToken → Option (Bool × List HashToken)
  | HashToken.u8tok 0 :: rest => some (false, rest)
  | HashToken.u8tok 1 :: rest => some (true, rest)
  | _ => none

theorem decBool_hash (b : Bool) (rest : List HashToken) :
    decBool (hashBool b ++ rest) = some (b, rest) := by
  cases b <;> rfl

def decSong : List HashToken → Option (SongFilter × List HashToken)
  | HashToken.disc 0 :: HashToken.u8tok n :: rest => some (SongFilter.Main n, rest)
  | HashToken.disc 1 :: HashToken.u64tok n :: rest => some (SongFilter.Custom n, rest)
  | _ => none

def decOptSong : List HashToken → Option (Option SongFilter × List HashToken)
  | HashToken.disc 0 :: rest => some (none, rest)
  | HashToken.disc 1 :: rest => (decSong rest).map (fun p => (some p.1, p.2))
  | _ => none

theorem decOptSong_hash (o : Option SongFilter) (rest : List HashToken) :
    decOptSong (hashOptSongFilter o ++ rest) = some (o, rest) := by
  match o with
  | none => rfl
  | some (SongFilter.Main n) => rfl
  | some (SongFilter.Custom n) => rfl

def DemonRating.ofDisc : Nat → Option DemonRating
  | 0 => some DemonRating.Easy
  | 1 => some DemonRating.Medium
  | 2 => some DemonRating.Hard
  | 3 => some DemonRating.Insane
  | 4 => some DemonRating.Extreme
  | _ => none

def decOptDemon : List HashToken → Option (Option DemonRating × List HashToken)
  | HashToken.disc 0 :: rest => some (none, rest)
  | HashToken.disc 1 :: HashToken.disc n :: rest =>
      (DemonRating.ofDisc n).map (fun d => (some d, rest))
  | _ => none

theorem decOptDemon_hash (o : Option DemonRating) (rest : List HashToken) :
    decOptDemon (hashOptDemon o ++ rest) = some (o, rest) := by
  match o with
  | none => rfl
  | some d => cases d <;> rfl

def decDemon : List HashToken → Option (DemonRating × List HashToken)
  | HashToken.disc n :: rest => (DemonRating.ofDisc n).map (fun d => (d, rest))
  | _ => none

def LevelRating.ofDisc : Nat → Option LevelRating
  | 0 => some LevelRating.NotAvailable
  | 1 => some LevelRating.Auto
  | 2 => some LevelRating.Easy
  | 3 => some LevelRating.Normal
  | 4 => some LevelRating.Hard
  | 5 => some LevelRating.Harder
  | 6 => some LevelRating.Insane
  | _ => none

def decRating : List HashToken → Option (LevelRating × List HashToken)
  | HashToken.disc 7 :: rest => (decDemon rest).map (fun p => (LevelRating.Demon p.1, p.2))
  | HashToken.disc n :: rest => (LevelRating.ofDisc n).map (fun x => (x, rest))
  | _ => none

theorem decRating_hash (x : LevelRating) (rest : List HashToken) :
    decRating (hashRating x ++ rest) = some (x, rest) := by
  match x with
  | LevelRating.Demon d => cases d <;> rfl
  | LevelRating.NotAvailable | LevelRating.Auto | LevelRating.Easy
  | LevelRating.Normal | LevelRating.Hard | LevelRating.Harder
  | LevelRating.Insane => rfl

def LevelLength.ofDisc : Nat → Option LevelLength
  | 0 => some LevelLength.Tiny
  | 1 => some LevelLength.Short
  | 2 => some LevelLength.Medium
  | 3 => some LevelLength.Long
  | 4 => some LevelLength.ExtraLong
  | _ => none

def decLength : List HashToken → Option (LevelLength × List HashToken)
  | HashToken.disc n :: rest => (LevelLength.ofDisc n).map (fun x => (x, rest))
  | _ => none

theorem decLength_hash (x : LevelLength) (rest : List HashToken) :
    decLength (hashLength x ++ rest) = some (x, rest) := by
  cases x <;> rfl

def decListN {α : Type} (dec : List HashToken → Option (α × List HashToken)) :
    Nat → List HashToken → Option (List α × List HashToken)
  | 0, l => some ([], l)
  | n + 1, l =>
      (dec l).bind (fun p => (decListN dec n p.2).map (fun q => (p.1 :: q.1, q.2)))

def decVec {α : Type} (dec : List HashToken → Option (α × List HashToken)) :
    List HashToken → Option (List α × List HashToken)
  | HashToken.lenTok n :: rest => decListN dec n rest
  | _ => none

theorem decListN_hash {α : Type} (dec : List HashToken → Option (α × List HashToken))
    (enc : α → List HashToken)
    (h : ∀ x rest, dec (enc x ++ rest) = some (x, rest)) :
    ∀ (xs : List α) (rest : List HashToken),
      decListN dec xs.length ((xs.map enc).flatten ++ rest) = some (xs, rest) := by
  intro xs
  induction xs with
  | nil => intro rest; rfl
  | cons x xs ih =>
      intro rest
      simp [decListN, List.append_assoc, h, ih]

theorem decVec_hash {α : Type} (dec : List HashToken → Option (α × List HashToken))
    (enc : α → List HashToken)
    (h : ∀ x rest, dec (enc x ++ rest) = some (x, rest))
    (xs : List α) (rest : List HashToken) :
    decVec dec (hashVec enc xs ++ rest) = some (xs, rest) := by
  simp [hashVec, decVec, decListN_hash dec enc h]

def decSearchFilters (l : List HashToken) : Option (SearchFilters × List HashToken) :=
  (decBool l).bind fun p1 =>
  (decBool p1.2).bind fun p2 =>
  (decBool p2.2).bind fun p3 =>
  (decBool p3.2).bind fun p4 =>
  (decBool p4.2).bind fun p5 =>
  (decBool p5.2).bind fun p6 =>
  (decBool p6.2).bind fun p7 =>
  (decBool p7.2).bind fun p8 =>
  (decOptSong p8.2).map fun p9 =>
    (⟨p1.1, p2.1, p3.1, p4.1, p5.1, p6.1, p7.1, p8.1, p9.1⟩, p9.2)

theorem decSearchFilters_hash (f : SearchFilters) (rest : List HashToken) :
    decSearchFilters (hashSearchFilters f ++ rest) = some (f, rest) := by
  simp [decSearchFilters, hashSearchFilters, List.append_assoc, decBool_hash,
    decOptSong_hash]

def decI32 : List HashToken → Option (Int × List HashToken)
  | HashToken.i32tok i :: rest => some (i, rest)
  | _ => none

def decStr : List HashToken → Option (String × List HashToken)
  | HashToken.strTok s :: rest => some (s, rest)
  | _ => none

def decU32 : List HashToken → Option (Nat × List HashToken)
  | HashToken.u32tok n :: rest => some (n, rest)
  | _ => none

def decU64 : List HashToken → Option (Nat × List HashToken)
  | HashToken.u64tok n :: rest => some (n, rest)
  | _ => none

def LevelRequestType.ofDisc : Nat → Option LevelRequestType
  | 0 => some LevelRequestType.Search
  | 1 => some LevelRequestType.MostDownloaded
  | 2 => some LevelRequestType.MostLiked
  | 3 => some LevelRequestType.Trending
  | 4 => some LevelRequestType.Recent
  | 5 => some LevelRequestType.User
  | 6 => some LevelRequestType.Featured
  | 7 => some LevelRequestType.Magic
  | 8 => some LevelRequestType.Unknown8
  | 9 => some LevelRequestType.Awarded
  | 10 => some LevelRequestType.Followed
  | 11 => some LevelRequestType.Friend
  | 12 => some LevelRequestType.Unknown12
  | 13 => some LevelRequestType.Unknown13
  | 14 => some LevelRequestType.Unknown14
  | 15 => some LevelRequestType.Unknown15
  | 16 => some LevelRequestType.HallOfFame
  | _ => none

def decReqType : List HashToken → Option (LevelRequestType × List HashToken)
  | HashToken.disc n :: rest => (LevelRequestType.ofDisc n).map (fun x => (x, rest))
  | _ => none

theorem decReqType_disc (t : LevelRequestType) (rest : List HashToken) :
    decReqType (HashToken.disc t.toDisc :: rest) = some (t, rest) := by
  cases t <;> rfl

/-- Full decoder for the `LevelsRequest` hash data: recovers every non-base
field in the order the manual `Hash` impl feeds them. -/
def decLevelsData (l : List HashToken) :
    Option ((SearchFilters × Int × Option DemonRating × List LevelRating ×
      List LevelLength × String × LevelRequestType × Nat) × List HashToken) :=
  (decSearchFilters l).bind fun p1 =>
  (decI32 p1.2).bind fun p2 =>
  (decOptDemon p2.2).bind fun p3 =>
  (decVec decRating p3.2).bind fun p4 =>
  (decVec decLength p4.2).bind fun p5 =>
  (decStr p5.2).bind fun p6 =>
  (decReqType p6.2).bind fun p7 =>
  (decU32 p7.2).map fun p8 =>
    ((p1.1, p2.1, p3.1, p4.1, p5.1, p6.1, p7.1, p8.1), p8.2)

theorem decLevelsData_hash (r : LevelsRequest) (rest : List HashToken) :
    decLevelsData (levelsRequestHashData r ++ rest) =
      some ((r.search_filters, r.total, r.demon_rating, r.ratings, r.lengths,
        r.search_string, r.request_type, r.page), rest) := by
  simp [decLevelsData, levelsRequestHashData, List.append_assoc,
    decSearchFilters_hash, decI32, decOptDemon_hash,
    decVec_hash decRating hashRating decRating_hash,
    decVec_hash decLength hashLength decLength_hash,
    decStr, decReqType_disc, decU32]

/-- Full decoder for the `LevelRequest` hash data. -/
def decLevelData (l : List HashToken) :
    Option ((Nat × Bool × Bool) × List HashToken) :=
  (decU64 l).bind fun p1 =>
  (decBool p1.2).bind fun p2 =>
  (decBool p2.2).map fun p3 => ((p1.1, p2.1, p3.1), p3.2)

theorem decLevelData_hash (r : LevelRequest) (rest : List HashToken) :
    decLevelData (levelRequestHashData r ++ rest) =
      some ((r.level_id, r.inc, r.extra), rest) := by
  simp [decLevelData, levelRequestHashData, List.append_assoc, decU64,
    decBool_hash]

theorem levelRequestHashData_inj {r r' : LevelRequest}
    (h : levelRequestHashData r = levelRequestHashData r') :
    r.level_id = r'.level_id ∧ r.inc = r'.inc ∧ r.extra = r'.extra := by
  have h1 := decLevelData_hash r []
  have h2 := decLevelData_hash r' []
  rw [h] at h1
  rw [h2] at h1
  have := Option.some.inj h1
  have ht : (r'.level_id, r'.inc, r'.extra) = (r.level_id, r.inc, r.extra) :=
    congrArg Prod.fst this
  refine ⟨?_, ?_, ?_⟩
  · exact (congrArg Prod.fst ht).symm
  · exact (congrArg (fun t => t.2.1) ht).symm
  · exact (congrArg (fun t => t.2.2) ht).symm

theorem levelsRequestHashData_inj {r r' : LevelsRequest}
    (h : levelsRequestHashData r = levelsRequestHashData r') :
    r.search_filters = r'.search_filters ∧ r.total = r'.total ∧
    r.demon_rating = r'.demon_rating ∧ r.ratings = r'.ratings ∧
    r.lengths = r'.lengths ∧ r.search_string = r'.search_string ∧
    r.request_type = r'.request_type ∧ r.page = r'.page := by
  have h1 := decLevelsData_hash r []
  have h2 := decLevelsData_hash r' []
  rw [h] at h1
  rw [h2] at h1
  have ht := congrArg Prod.fst (Option.some.inj h1)
  refine ⟨?_, ?_, ?_, ?_, ?_, ?_, ?_, ?_⟩
  · exact (congrArg (fun t => t.1) ht).symm
  · exact (congrArg (fun t => t.2.1) ht).symm
  · exact (congrArg (fun t => t.2.2.1) ht).symm
  · exact (congrArg (fun t => t.2.2.2.1) ht).symm
  · exact (congrArg (fun t => t.2.2.2.2.1) ht).symm
  · exact (congrArg (fun t => t.2.2.2.2.2.1) ht).symm
  · exact (congrArg (fun t => t.2.2.2.2.2.2.1) ht).symm
  · exact (congrArg (fun t => t.2.2.2.2.2.2.2) ht).symm

/-- C4: the fingerprint (the data the manual `Hash` impls feed to the hasher)
of a `LevelRequest` and of a `LevelsRequest` excludes the `base` field — two
requests that differ only in `base` feed identical data — while every non-base
semantic field (including the page number of a `LevelsRequest`) is fed to the
hasher: the fed data determines each of those fields. -/
theorem hash_excludes_base_includes_all_semantic_fields :
    (∀ (r : LevelRequest) (b : BaseRequest),
      levelRequestHashData { r with base := b } = levelRequestHashData r) ∧
    (∀ (r : LevelsRequest) (b : BaseRequest),
      levelsRequestHashData { r with base := b } = levelsRequestHashData r) ∧
    (∀ r r' : LevelRequest,
      levelRequestHashData r = levelRequestHashData r' ↔
        (r.level_id = r'.level_id ∧ r.inc = r'.inc ∧ r.extra = r'.extra)) ∧
    (∀ r r' : LevelsRequest,
      levelsRequestHashData r = levelsRequestHashData r' ↔
        (r.search_filters = r'.search_filters ∧ r.total = r'.total ∧
         r.demon_rating = r'.demon_rating ∧ r.ratings = r'.ratings ∧
         r.lengths = r'.lengths ∧ r.search_string = r'.search_string ∧
         r.request_type = r'.request_type ∧ r.page = r'.page)) := by
  refine ⟨fun r b => rfl, fun r b => rfl, fun r r' => ⟨levelRequestHashData_inj, ?_⟩,
    fun r r' => ⟨levelsRequestHashData_inj, ?_⟩⟩
  · rintro ⟨h1, h2, h3⟩
    simp [levelRequestHashData, h1, h2, h3]
  · rintro ⟨h1, h2, h3, h4, h5, h6, h7, h8⟩
    simp [levelsRequestHashData, h1, h2, h3, h4, h5, h6, h7, h8]

/-- C5 counterexample: the claim says a field at its default value contributes
nothing to the hashed data. Were that so, the all-default `LevelRequest` and
`LevelsRequest` (every semantic field at its default) would feed nothing to
the hasher. In the code both manual `Hash` impls feed every non-base field
unconditionally: the all-default requests feed non-empty data, with the
default `level_id = 0` visibly present. -/
theorem hash_default_fields_still_fed_cex :
    levelRequestHashData LevelRequest.default =
      [HashToken.u64tok 0, HashToken.u8tok 0, HashToken.u8tok 0] ∧
    levelRequestHashData LevelRequest.default ≠ [] ∧
    levelsRequestHashData LevelsRequest.default ≠ [] := by
  refine ⟨rfl, ?_, ?_⟩ <;> decide

/-- C5 amended: neither `Hash` impl skips any field: every non-base field is
fed to the hasher unconditionally, whether or not it equals its default (the
skip-defaults convention documented at the top of the source file applies only
to fields added by future schema updates, none of which exist). Hence equal
hash data forces equality of every non-base field even at defaults, and a
request with all fields at their defaults still feeds data for each field. -/
theorem hash_never_skips_default_fields :
    (∀ r r' : LevelRequest, levelRequestHashData r = levelRequestHashData r' →
      (r.level_id = r'.level_id ∧ r.inc = r'.inc ∧ r.extra = r'.extra)) ∧
    (∀ r r' : LevelsRequest, levelsRequestHashData r = levelsRequestHashData r' →
      (r.search_filters = r'.search_filters ∧ r.total = r'.total ∧
       r.demon_rating = r'.demon_rating ∧ r.ratings = r'.ratings ∧
       r.lengths = r'.lengths ∧ r.search_string = r'.search_string ∧
       r.request_type = r'.request_type ∧ r.page = r'.page)) ∧
    (levelRequestHashData LevelRequest.default).length = 3 ∧
    (levelsRequestHashData LevelsRequest.default).length = 16 := by
  refine ⟨fun r r' h => levelRequestHashData_inj h,
    fun r r' h => levelsRequestHashData_inj h, rfl, ?_⟩
  decide

/-- C5 witness: the amended theorem applied at a concrete pair of equal
requests, its equality hypothesis discharged by `rfl`. -/
theorem hash_never_skips_default_fields_witness :
    LevelRequest.default.level_id = LevelRequest.default.level_id ∧
    LevelRequest.default.inc = LevelRequest.default.inc ∧
    LevelRequest.default.extra = LevelRequest.default.extra :=
  hash_never_skips_default_fields.1 LevelRequest.default LevelRequest.default rfl

/- ### Domain model (gdcf_model) and the PartialLevel -> Level upgrade
   (src/gdcf/src/upgrade/level.rs) -/

/-- `PartialLevel<Song, User>` of gdcf_model. The field list is exactly the
one destructured by `change_partial_level_song` / `change_partial_level_user`
in src/gdcf/src/upgrade/level.rs; the non-slot field types are not in src/
(gdcf_model/src/level.rs is absent) and are given representative value types,
which no claim depends on. -/
structure PartialLevel (Song User : Type) where
  level_id : Nat
  name : String
  description : Option String
  version : Nat
  creator : User
  difficulty : LevelRating
  downloads : Nat
  main_song : Option Nat
  gd_version : Nat
  likes : Int
  length : LevelLength
  stars : Nat
  featured : Int
  index_31 : Option String
  copy_of : Option Nat
  coin_amount : Nat
  coins_verified : Bool
  stars_requested : Option Nat
  index_40 : Option String
  is_epic : Bool
  index_43 : String
  object_amount : Option Nat
  index_46 : Option String
  index_47 : Option String
  custom_song : Song
deriving DecidableEq

/-- `Password` of gdcf_model (gdcf_model/src/level.rs is absent from src/;
variants as used by `level_password` in src/gdcf_parse/src/level.rs). A
password-copy password is kept as the list of its characters' code points. -/
inductive Password where
  | NoCopy
  | FreeCopy
  | PasswordCopy (pw : List Nat)
deriving DecidableEq

/-- `Level<Song, User>` of gdcf_model. Field list exactly as destructured by
`change_level_song` / `change_level_user` in src/gdcf/src/upgrade/level.rs. -/
structure Level (Song User : Type) where
  base : PartialLevel Song User
  level_data : List Nat
  password : Password
  time_since_update : String
  time_since_upload : String
  index_36 : String
deriving DecidableEq

/-- `change_partial_level_song` from src/gdcf/src/upgrade/level.rs: rebind the
custom-song slot, preserving every other field and returning the evicted
song. -/
def change_partial_level_song {OldSong NewSong User : Type}
    (partial_level : PartialLevel OldSong User) (new_song : NewSong) :
    PartialLevel NewSong User × OldSong :=
  ({ level_id := partial_level.level_id
     name := partial_level.name
     description := partial_level.description
     version := partial_level.version
     creator := partial_level.creator
     difficulty := partial_level.difficulty
     downloads := partial_level.downloads
     main_song := partial_level.main_song
     gd_version := partial_level.gd_version
     likes := partial_level.likes
     length := partial_level.length
     stars := partial_level.stars
     featured := partial_level.featured
     index_31 := partial_level.index_31
     copy_of := partial_level.copy_of
     coin_amount := partial_level.coin_amount
     coins_verified := partial_level.coins_verified
     stars_requested := partial_level.stars_requested
     index_40 := partial_level.index_40
     is_epic := partial_level.is_epic
     index_43 := partial_level.index_43
     object_amount := partial_level.object_amount
     index_46 := partial_level.index_46
     index_47 := partial_level.index_47
     custom_song := new_song },
   partial_level.custom_song)

/-- `change_partial_level_user` from src/gdcf/src/upgrade/level.rs. -/
def change_partial_level_user {OldUser NewUser Song : Type}
    (partial_level : PartialLevel Song OldUser) (new_user : NewUser) :
    PartialLevel Song NewUser × OldUser :=
  ({ level_id := partial_level.level_id
     name := partial_level.name
     description := partial_level.description
     version := partial_level.version
     creator := new_user
     difficulty := partial_level.difficulty
     downloads := partial_level.downloads
     main_song := partial_level.main_song
     gd_version := partial_level.gd_version
     likes := partial_level.likes
     length := partial_level.length
     stars := partial_level.stars
     featured := partial_level.featured
     index_31 := partial_level.index_31
     copy_of := partial_level.copy_of
     coin_amount := partial_level.coin_amount
     coins_verified := partial_level.coins_verified
     stars_requested := partial_level.stars_requested
     index_40 := partial_level.index_40
     is_epic := partial_level.is_epic
     index_43 := partial_level.index_43
     object_amount := partial_level.object_amount
     index_46 := partial_level.index_46
     index_47 := partial_level.index_47
     custom_song := partial_level.custom_song },
   partial_level.creator)

/-- `change_level_user` from src/gdcf/src/upgrade/level.rs: delegates the slot
rebind to the base partial level, preserving the level-only fields. -/
def change_level_user {OldUser NewUser Song : Type}
    (level : Level Song OldUser) (new_user : NewUser) :
    Level Song NewUser × OldUser :=
  (({ base := (change_partial_level_user level.base new_user).1
      level_data := level.level_data
      password := level.password
      time_since_update := level.time_since_update
      time_since_upload := level.time_since_upload
      index_36 := level.index_36 } : Level Song NewUser),
   (change_partial_level_user level.base new_user).2)

/-- `change_level_song` from src/gdcf/src/upgrade/level.rs. -/
def change_level_song {OldSong NewSong User : Type}
    (level : Level OldSong User) (new_song : NewSong) :
    Level NewSong User × OldSong :=
  (({ base := (change_partial_level_song level.base new_song).1
      level_data := level.level_data
      password := level.password
      time_since_update := level.time_since_update
      time_since_upload := level.time_since_upload
      index_36 := level.index_36 } : Level NewSong User),
   (change_partial_level_song level.base new_song).2)

/-- Modelled from the spec: `UpgradeQuery` (src/gdcf/src/upgrade/mod.rs is not
in src/). The shape of the `One` constructor — an optional first-stage state
and an optional resolved upgrade — is exactly what the code in
src/gdcf/src/upgrade/level.rs constructs (`UpgradeQuery::One(None, Some(..))`)
and destructures (`resolved_query.one()` giving such a pair). The collection
variant of the spec is not needed by any claim and is omitted. -/
inductive UpgradeQuery (State Upgrade : Type) where
  | One (state : Option State) (upgrade : Option Upgrade)
deriving DecidableEq

/-- The `one()` accessor of an `UpgradeQuery`. -/
def UpgradeQuery.one {State Upgrade : Type} :
    UpgradeQuery State Upgrade → Option State × Option Upgrade
  | UpgradeQuery.One s u => (s, u)

/-- Modelled from the spec: `CacheEntry` (src/gdcf/src/cache/mod.rs is not in
src/). Variants per §3.1 — *Missing*, *MarkedAbsent(meta)*,
*Cached(value, meta)* — matching the `CacheEntry::Cached(user, _)` pattern
used in src/gdcf/src/upgrade/level.rs. -/
inductive CacheEntry (V Meta : Type) where
  | Missing
  | MarkedAbsent (meta : Meta)
  | Cached (value : V) (meta : Meta)
deriving DecidableEq

/-- Modelled from the spec: `UpgradeError` (src/gdcf/src/upgrade/mod.rs is not
in src/). Per §7: *UpgradeFailed* when an upgrade dependency could not be
resolved, plus the cache-failure wrapper the `C::Err` parameter implies. -/
inductive UpgradeError (E : Type) where
  | UpgradeFailed
  | Cache (e : E)
deriving DecidableEq

/-- `process_query_result` of `impl Upgradable<Level<Song, User>> for
PartialLevel<Song, User>` (src/gdcf/src/upgrade/level.rs, lines 30-40): the
first match arm takes an already-resolved upgrade when the lookup component is
absent, the second takes the value of a `Cached` lookup entry; everything else
is `UpgradeError::UpgradeFailed`. The resolved query's state type in the
source is the never type `!`, embedded as `Empty`. -/
def process_query_result {M E : Type}
    (resolved_query : UpgradeQuery (CacheEntry (Level (Option Nat) Nat) M)
      (Level (Option Nat) Nat)) :
    Except (UpgradeError E) (UpgradeQuery Empty (Level (Option Nat) Nat)) :=
  match resolved_query.one with
  | (none, some user) => Except.ok (UpgradeQuery.One none (some user))
  | (some (CacheEntry.Cached user _), _) => Except.ok (UpgradeQuery.One none (some user))
  | _ => Except.error UpgradeError.UpgradeFailed

/-- `upgrade` of `impl Upgradable<Level<Song, User>> for PartialLevel<Song,
User>` (src/gdcf/src/upgrade/level.rs, lines 42-55). The source's
`upgrade.one().1.unwrap()` panics when the query is unresolved; the panic is
embedded as `none`. -/
def PartialLevel.upgrade {Song User State : Type}
    (self : PartialLevel Song User)
    (upgrade : UpgradeQuery State (Level (Option Nat) Nat)) :
    Option (Level Song User × UpgradeQuery State (PartialLevel (Option Nat) Nat)) :=
  match upgrade.one.2 with
  | none => none
  | some upgrade =>
    let p1 := change_partial_level_song self ()
    let p2 := change_partial_level_user p1.1 ()
    let l1 := change_level_song upgrade p1.2
    let l2 := change_level_user l1.1 p2.2
    let q1 := (change_partial_level_user p2.1 l2.2).1
    let q2 := (change_partial_level_song q1 l1.2).1
    some (l2.1, UpgradeQuery.One none (some q2))

/-- `downgrade` of the same impl (src/gdcf/src/upgrade/level.rs, lines 57-70);
again the source's `.unwrap()` panic is embedded as `none`. -/
def Level.downgrade {Song User State : Type}
    (upgraded : Level Song User)
    (downgrade : UpgradeQuery State (PartialLevel (Option Nat) Nat)) :
    Option (PartialLevel Song User × UpgradeQuery State (Level (Option Nat) Nat)) :=
  match downgrade.one.2 with
  | none => none
  | some downgrade =>
    let l1 := change_level_song upgraded ()
    let l2 := change_level_user l1.1 ()
    let p1 := change_partial_level_song downgrade l1.2
    let p2 := change_partial_level_user p1.1 l2.2
    let m1 := (change_level_user l2.1 p2.2).1
    let m2 := (change_level_song m1 p1.2).1
    some (p2.1, UpgradeQuery.One none (some m2))

/-- A concrete thin partial level used by the counterexamples below. -/
def samplePartialLevel : PartialLevel (Option Nat) Nat :=
  { level_id := 1, name := "a", description := none, version := 1,
    creator := 2, difficulty := LevelRating.Easy, downloads := 3,
    main_song := none, gd_version := 21, likes := 4, length := LevelLength.Tiny,
    stars := 5, featured := 0, index_31 := none, copy_of := none,
    coin_amount := 0, coins_verified := false, stars_requested := none,
    index_40 := none, is_epic := false, index_43 := "", object_amount := none,
    index_46 := none, index_47 := none, custom_song := none }

/-- A concrete thin level (the shape returned by a `LevelRequest`) used by the
counterexamples below. -/
def sampleLevel : Level (Option Nat) Nat :=
  { base := { samplePartialLevel with creator := 9, custom_song := some 7 },
    level_data := [], password := Password.NoCopy, time_since_update := "",
    time_since_upload := "", index_36 := "" }

/-- C1 counterexample: an upgrade query that carries a resolved
`Level<Option<u64>, u64>` value but also a non-empty first-stage state. The
code's `upgrade` discards that state (it always emits `One(None, ..)`), so
running `downgrade` on the two components of `upgrade` returns the query with
an empty state — not the original query: the roundtrip is not exact for every
query carrying a resolved value. -/
theorem upgrade_downgrade_roundtrip_cex :
    ((samplePartialLevel.upgrade
        (UpgradeQuery.One (some ()) (some sampleLevel))).bind
      fun p => p.1.downgrade p.2) ≠
      some (samplePartialLevel, UpgradeQuery.One (some ()) (some sampleLevel)) := by
  decide

/-- C1 amended: for every partial level `a` and every upgrade query carrying a
resolved `Level<Option<u64>, u64>` value `L`, `downgrade` applied to the two
components of `upgrade` yields back exactly `a` together with
`One(None, Some L)` — the original query with its first-stage state dropped.
The roundtrip is exact whenever the query's state component is empty, as it
always is for the queries `process_query_result` produces (their state type is
the uninhabited `!`). -/
theorem upgrade_downgrade_roundtrip {Song User State : Type}
    (a : PartialLevel Song User) (st : Option State)
    (L : Level (Option Nat) Nat) :
    ∃ b f, a.upgrade (UpgradeQuery.One st (some L)) = some (b, f) ∧
      b.downgrade f = some (a, UpgradeQuery.One none (some L)) :=
  ⟨_, _, rfl, rfl⟩

/-- C8 counterexample: a resolved query whose lookup component is a `Missing`
cache entry while its second component does carry an already-resolved upgrade
value. The claim demands `Ok` whenever a resolved upgrade is present; the code
answers `UpgradeFailed` because the wildcard arm wins once the lookup
component is `Some` but not `Cached`. -/
theorem process_query_result_cex :
    process_query_result (M := Unit) (E := Unit)
        (UpgradeQuery.One (some CacheEntry.Missing) (some sampleLevel)) =
      Except.error UpgradeError.UpgradeFailed ∧
    (UpgradeQuery.One (some (CacheEntry.Missing :
        CacheEntry (Level (Option Nat) Nat) Unit)) (some sampleLevel)).one.2 =
      some sampleLevel :=
  ⟨rfl, rfl⟩

/-- C8 amended: complete classification of `process_query_result`. It returns
`Ok` exactly when the lookup component is absent and a resolved upgrade is
present (returning that upgrade), or the lookup component is a `Cached` entry
(returning the cached value, even if a resolved upgrade is also present);
every other query — no resolved upgrade and no lookup entry, or a lookup that
produced `Missing` or `MarkedAbsent`, even alongside a resolved upgrade —
fails with `UpgradeError::UpgradeFailed`. -/
theorem process_query_result_classification {M E : Type} :
    (∀ (u : Level (Option Nat) Nat),
      process_query_result (M := M) (E := E)
          (UpgradeQuery.One none (some u)) =
        Except.ok (UpgradeQuery.One none (some u))) ∧
    (∀ (u : Level (Option Nat) Nat) (m : M) (s : Option (Level (Option Nat) Nat)),
      process_query_result (E := E)
          (UpgradeQuery.One (some (CacheEntry.Cached u m)) s) =
        Except.ok (UpgradeQuery.One none (some u))) ∧
    (process_query_result (M := M) (E := E) (UpgradeQuery.One none none) =
      Except.error UpgradeError.UpgradeFailed) ∧
    (∀ (s : Option (Level (Option Nat) Nat)),
      process_query_result (M := M) (E := E)
          (UpgradeQuery.One (some CacheEntry.Missing) s) =
        Except.error UpgradeError.UpgradeFailed) ∧
    (∀ (m : M) (s : Option (Level (Option Nat) Nat)),
      process_query_result (E := E)
          (UpgradeQuery.One (some (CacheEntry.MarkedAbsent m)) s) =
        Except.error UpgradeError.UpgradeFailed) := by
  refine ⟨fun u => rfl, fun u m s => ?_, rfl, fun s => ?_, fun m s => ?_⟩ <;>
    cases s <;> rfl

/- ### Process-request future (src/gdcf/src/future/process.rs) -/

/-- `futures::Async` (futures 0.1): a poll either has a value ready or not. -/
inductive Async (T : Type) where
  | notReady
  | ready (t : T)
deriving DecidableEq

/-- The observable outcome of one `poll` call: the source can panic
(`UpToDate(None, _)`), fail, suspend, or yield the item. -/
inductive PollOutcome (E I : Type) where
  | panicked
  | err (e : E)
  | notReady
  | ready (i : I)
deriving DecidableEq

/-- Lift an inner future's `Result<Async<I>, E>` into a `PollOutcome`. -/
def liftPoll {E I : Type} : Except E (Async I) → PollOutcome E I
  | Except.error e => PollOutcome.err e
  | Except.ok Async.notReady => PollOutcome.notReady
  | Except.ok (Async.ready i) => PollOutcome.ready i

/-- `ProcessRequestFutureState` from src/gdcf/src/future/process.rs. The
`RefreshCacheFuture` it wraps (src/gdcf/src/future/refresh.rs is not in src/)
is opaque here: the type parameter `F`, polled through a function passed to
`poll`. The parameter `R` stands for the request type and `V` for the item
type `CacheEntry` of the request's result and the cache's metadata. -/
inductive ProcessRequestFutureState (R F V : Type) where
  | Uncached (future : F)
  | Outdated (entry : V) (future : F)
  | UpToDate (entry : Option V) (request : R)
deriving DecidableEq

/-- `ProcessRequestFuture` from src/gdcf/src/future/process.rs; `G` stands for
the opaque `Gdcf<A, C>` handle. -/
structure ProcessRequestFuture (G R F V : Type) where
  gdcf : G
  forces_refresh : Bool
  state : ProcessRequestFutureState R F V
deriving DecidableEq

/-- `<ProcessRequestFuture as Future>::poll` (src/gdcf/src/future/process.rs,
lines 113-120), with the inner refresh future's stateful poll passed in as
`pollF`. `UpToDate(None, _)` panics; `Uncached` and `Outdated` delegate to the
refresh future; `UpToDate(Some(..), _)` takes the entry out and returns it. -/
def ProcessRequestFuture.poll {G R F V E : Type}
    (pollF : F → Except E (Async V) × F)
    (self : ProcessRequestFuture G R F V) :
    PollOutcome E V × ProcessRequestFuture G R F V :=
  match self.state with
  | ProcessRequestFutureState.UpToDate none _ => (PollOutcome.panicked, self)
  | ProcessRequestFutureState.Uncached future =>
      (liftPoll (pollF future).1,
       { self with state := ProcessRequestFutureState.Uncached (pollF future).2 })
  | ProcessRequestFutureState.Outdated entry future =>
      (liftPoll (pollF future).1,
       { self with state := ProcessRequestFutureState.Outdated entry (pollF future).2 })
  | ProcessRequestFutureState.UpToDate (some entry) request =>
      (PollOutcome.ready entry,
       { self with state := ProcessRequestFutureState.UpToDate none request })

/-- `<ProcessRequestFuture as PeekableFuture>::peek`
(src/gdcf/src/future/process.rs, lines 71-94): the closure transforms the
cached entry in the `Outdated` and `UpToDate(Some ..)` states (its error
aborting the peek), every other state passes through untouched; `gdcf` and
`forces_refresh` are rebuilt unchanged. -/
def ProcessRequestFuture.peek {G R F V E : Type}
    (f : V → Except E V)
    (self : ProcessRequestFuture G R F V) :
    Except E (ProcessRequestFuture G R F V) :=
  match self.state with
  | ProcessRequestFutureState.Outdated entry future =>
      (f entry).map fun e =>
        { self with state := ProcessRequestFutureState.Outdated e future }
  | ProcessRequestFutureState.UpToDate (some entry) request =>
      (f entry).map fun e =>
        { self with state := ProcessRequestFutureState.UpToDate (some e) request }
  | _ => Except.ok self

/-- C2: in the `Outdated` state, `poll` delegates entirely to the refresh
future: the outcome and the successor state are exactly the lift of the
refresh future's poll, the stale entry is carried along untouched, the outcome
is independent of which stale entry is stored, and the stale entry is
observable through `peek`. -/
theorem outdated_poll_delegates {G R F V E : Type}
    (pollF : F → Except E (Async V) × F) (g : G) (fr : Bool)
    (e e' : V) (f : F) (t : V → V) :
    ProcessRequestFuture.poll pollF
        ⟨g, fr, ProcessRequestFutureState.Outdated (R := R) e f⟩ =
      (liftPoll (pollF f).1,
       ⟨g, fr, ProcessRequestFutureState.Outdated e (pollF f).2⟩) ∧
    (ProcessRequestFuture.poll pollF
        ⟨g, fr, ProcessRequestFutureState.Outdated (R := R) e f⟩).1 =
      (ProcessRequestFuture.poll pollF
        ⟨g, fr, ProcessRequestFutureState.Outdated (R := R) e' f⟩).1 ∧
    ProcessRequestFuture.peek (E := E) (fun x => Except.ok (t x))
        ⟨g, fr, ProcessRequestFutureState.Outdated (R := R) e f⟩ =
      Except.ok ⟨g, fr, ProcessRequestFutureState.Outdated (t e) f⟩ :=
  ⟨rfl, rfl, rfl⟩

/-- C3: in the `UpToDate` state with a present cached entry, the first `poll`
returns `Ready` with that entry and empties the slot; polling the emptied
state panics (for any inner poll function), rather than yielding a value or an
error. -/
theorem uptodate_poll_once_then_panics {G R F V E : Type}
    (pollF : F → Except E (Async V) × F) (g : G) (fr : Bool)
    (e : V) (req : R) :
    ProcessRequestFuture.poll pollF
        ⟨g, fr, ProcessRequestFutureState.UpToDate (F := F) (some e) req⟩ =
      (PollOutcome.ready e,
       ⟨g, fr, ProcessRequestFutureState.UpToDate none req⟩) ∧
    (∀ pollF2 : F → Except E (Async V) × F,
      ProcessRequestFuture.poll pollF2
          ⟨g, fr, ProcessRequestFutureState.UpToDate (F := F) none req⟩ =
        (PollOutcome.panicked,
         ⟨g, fr, ProcessRequestFutureState.UpToDate none req⟩)) ∧
    (∀ x : V, (PollOutcome.panicked : PollOutcome E V) ≠ PollOutcome.ready x) ∧
    (∀ er : E, (PollOutcome.panicked : PollOutcome E V) ≠ PollOutcome.err er) := by
  refine ⟨rfl, fun _ => rfl, fun x h => ?_, fun er h => ?_⟩ <;> cases h

/-- C7: `peek` applies the transformation to the cached entry in the
`Outdated` and populated `UpToDate` states, leaving the refresh future, the
original request, the gdcf handle and the `forces_refresh` flag unchanged (a
failing transformation aborts the peek); in the `Uncached` state and the
exhausted `UpToDate` state it is a no-op returning the future unchanged. -/
theorem peek_updates_entry_only {G R F V E : Type}
    (f : V → Except E V) (g : G) (fr : Bool) (e : V)
    (fut : F) (req : R) :
    ProcessRequestFuture.peek f ⟨g, fr, ProcessRequestFutureState.Outdated (R := R) e fut⟩ =
      (f e).map (fun e2 => ⟨g, fr, ProcessRequestFutureState.Outdated e2 fut⟩) ∧
    ProcessRequestFuture.peek f ⟨g, fr, ProcessRequestFutureState.UpToDate (F := F) (some e) req⟩ =
      (f e).map (fun e2 => ⟨g, fr, ProcessRequestFutureState.UpToDate (some e2) req⟩) ∧
    ProcessRequestFuture.peek f ⟨g, fr, ProcessRequestFutureState.Uncached (R := R) (V := V) fut⟩ =
      Except.ok ⟨g, fr, ProcessRequestFutureState.Uncached fut⟩ ∧
    ProcessRequestFuture.peek f ⟨g, fr, ProcessRequestFutureState.UpToDate (F := F) (V := V) none req⟩ =
      Except.ok ⟨g, fr, ProcessRequestFutureState.UpToDate none req⟩ :=
  ⟨rfl, rfl, rfl, rfl⟩

/- ### Error taxonomy and the pagination stream (src/gdcf/src/lib.rs) -/

/-- Modelled from the spec: `ApiError` (src/gdcf/src/error.rs is not in src/).
Per §4.4 and §7 the upper layers recognise the sentinel `NoData`; every other
client failure is opaque. The `ApiError::NoData` variant is the one matched in
`<GdcfStream as Stream>::poll` in src/gdcf/src/lib.rs. -/
inductive ApiError (E : Type) where
  | NoData
  | Custom (e : E)
deriving DecidableEq

/-- Modelled from the spec: `CacheError` (src/gdcf/src/error.rs is not in
src/). `CacheError::CacheMiss` is the variant matched by `Gdcf::integrity` in
src/gdcf/src/lib.rs; every other backend failure is opaque (§4.3). -/
inductive CacheError (E : Type) where
  | CacheMiss
  | Custom (e : E)
deriving DecidableEq

/-- Modelled from the spec: `GdcfError` (src/gdcf/src/error.rs is not in
src/). Per §7: an API failure, a cache failure, or the `NoContent` sentinel;
the `NoContent` and `Api(ApiError::NoData)` variants are the ones matched in
`<GdcfStream as Stream>::poll`, and `Cache` is what `Gdcf::integrity` wraps a
cache failure in. -/
inductive GdcfError (A C : Type) where
  | NoContent
  | Api (e : ApiError A)
  | Cache (e : CacheError C)
deriving DecidableEq

/-- `GdcfStream` from src/gdcf/src/lib.rs: the request for the next page and
the currently polled future. The `gdcf` handle and the boxed `request_maker`
closure are opaque; they are passed to `poll` as parameters. -/
structure GdcfStream (S F : Type) where
  request : S
  current : F
deriving DecidableEq

/-- `<GdcfStream as Stream>::poll` (src/gdcf/src/lib.rs, lines 262-281).
`pollF` is the stateful poll of the current inner future, `maker` the stored
`request_maker` closure (already applied to the gdcf handle), `next` the
`StreamableRequest::next` page-advance. On `Ready` the stream yields the item,
builds the next future from the stored request and advances the stored request
by one page; `NoContent` and `Api(NoData)` errors end the stream
(`Ready(None)`); every other error is returned unchanged. -/
def GdcfStream.poll {S F N A C : Type}
    (pollF : F → Except (GdcfError A C) (Async N) × F)
    (maker : S → F) (next : S → S) (self : GdcfStream S F) :
    Except (GdcfError A C) (Async (Option N)) × GdcfStream S F :=
  match pollF self.current with
  | (Except.ok Async.notReady, f) => (Except.ok Async.notReady, { self with current := f })
  | (Except.ok (Async.ready result), _) =>
      (Except.ok (Async.ready (some result)),
       { request := next self.request, current := maker self.request })
  | (Except.error GdcfError.NoContent, f) =>
      (Except.ok (Async.ready none), { self with current := f })
  | (Except.error (GdcfError.Api ApiError.NoData), f) =>
      (Except.ok (Async.ready none), { self with current := f })
  | (Except.error e, f) => (Except.error e, { self with current := f })

/-- C6: polling a `GdcfStream` returns end-of-stream (`Ready(None)`) exactly
when the current inner future fails with `NoContent` or `Api(NoData)`; every
other error of the inner future is propagated unchanged; a successful inner
result is yielded as the next item, after which the next future is built from
the stored request and the stored request is advanced with `next()`. -/
theorem gdcf_stream_poll_spec {S F N A C : Type}
    (pollF : F → Except (GdcfError A C) (Async N) × F)
    (maker : S → F) (next : S → S) (self : GdcfStream S F) :
    ((GdcfStream.poll pollF maker next self).1 = Except.ok (Async.ready none) ↔
      ((pollF self.current).1 = Except.error GdcfError.NoContent ∨
       (pollF self.current).1 = Except.error (GdcfError.Api ApiError.NoData))) ∧
    (∀ e, (pollF self.current).1 = Except.error e →
      e ≠ GdcfError.NoContent → e ≠ GdcfError.Api ApiError.NoData →
      (GdcfStream.poll pollF maker next self).1 = Except.error e) ∧
    (∀ r, (pollF self.current).1 = Except.ok (Async.ready r) →
      GdcfStream.poll pollF maker next self =
        (Except.ok (Async.ready (some r)),
         ⟨next self.request, maker self.request⟩)) ∧
    ((pollF self.current).1 = Except.ok Async.notReady →
      (GdcfStream.poll pollF maker next self).1 = Except.ok Async.notReady) := by
  unfold GdcfStream.poll
  rcases hp : pollF self.current with ⟨res, f⟩
  refine ⟨?_, ?_, ?_, ?_⟩
  · constructor
    · intro h
      match res with
      | Except.ok Async.notReady => simp_all
      | Except.ok (Async.ready r) => simp_all
      | Except.error GdcfError.NoContent => exact Or.inl rfl
      | Except.error (GdcfError.Api ApiError.NoData) => exact Or.inr rfl
      | Except.error (GdcfError.Api (ApiError.Custom e)) => simp_all
      | Except.error (GdcfError.Cache e) => simp_all
    · rintro (h | h) <;> simp_all
  · intro e he h1 h2
    simp only [hp] at he
    subst he
    match e with
    | GdcfError.NoContent => exact absurd rfl h1
    | GdcfError.Api ApiError.NoData => exact absurd rfl h2
    | GdcfError.Api (ApiError.Custom x) => rfl
    | GdcfError.Cache x => rfl
  · intro r hr
    simp only [hp] at hr
    subst hr
    rfl
  · intro hr
    simp only [hp] at hr
    subst hr
    rfl

/-- C6 witness: the theorem applied to a concrete stream whose inner future
fails with `Api(NoData)`, each hypothesis discharged on the concrete input. -/
theorem gdcf_stream_poll_spec_witness :
    (GdcfStream.poll (S := Nat) (N := Nat) (A := Unit) (C := Unit)
        (fun f => (f, f)) (fun _ => Except.ok Async.notReady) (fun p => p + 1)
        ⟨1, Except.error (GdcfError.Api ApiError.NoData)⟩).1 =
      Except.ok (Async.ready none) :=
  ((gdcf_stream_poll_spec (fun f => (f, f)) (fun _ => Except.ok Async.notReady)
      (fun p => p + 1)
      ⟨1, Except.error (GdcfError.Api ApiError.NoData)⟩).1).mpr (Or.inr rfl)

/- ### The integrity pass (src/gdcf/src/lib.rs, Gdcf::integrity) -/

/-- Modelled from the spec: the legacy `PartialLevel` of `gdcf::model`
(src/gdcf/src/model/level.rs is not in src/). Only the two fields
`Gdcf::integrity` reads are modelled: the level id and the optional custom
song id. -/
structure LegacyPartialLevel where
  level_id : Nat
  custom_song_id : Option Nat
deriving DecidableEq

/-- Modelled from the spec: the legacy `Level` of `gdcf::model`; `integrity`
touches only its embedded `base` partial level. -/
structure LegacyLevel where
  base : LegacyPartialLevel
deriving DecidableEq

/-- Modelled from the spec: `NewgroundsSong` of `gdcf::model`
(src/gdcf/src/model/song.rs is not in src/); `integrity` only tests whether
the song cache holds one, so a bare id suffices. -/
structure NewgroundsSong where
  song_id : Nat
deriving DecidableEq

/-- `GDObject` from src/gdcf/src/model/mod.rs: a processed response is a
sequence of these. -/
inductive GDObject where
  | NewgroundsSong (song : NewgroundsSong)
  | PartialLevel (level : LegacyPartialLevel)
  | Level (level : LegacyLevel)
deriving DecidableEq

/-- The follow-up request `Gdcf::integrity` issues for a level with an
uncached custom song:
`LevelsRequest::default().with_id(level_id).filter(SearchFilters::default().custom_song(song_id))`. -/
def integrity_request (level_id song_id : Nat) : LevelsRequest :=
  (LevelsRequest.default.with_id level_id).filter
    (SearchFilters.default.custom_song song_id)

/-- The scanning loop of `Gdcf::integrity` (src/gdcf/src/lib.rs, lines
128-153): for each `Level` object whose `custom_song_id` is present, the song
cache is consulted; a `CacheMiss` queues one follow-up request, any other
lookup error aborts the whole pass, and everything else is skipped. -/
def integrityScan {E : Type}
    (lookup_song : Nat → Except (CacheError E) NewgroundsSong) :
    List GDObject → Except (CacheError E) (List LevelsRequest)
  | [] => Except.ok []
  | obj :: rest =>
    match obj with
    | GDObject.Level level =>
      match level.base.custom_song_id with
      | some song_id =>
        match lookup_song song_id with
        | Except.error CacheError.CacheMiss =>
            (integrityScan lookup_song rest).map
              (fun reqs => integrity_request level.base.level_id song_id :: reqs)
        | Except.error (CacheError.Custom e) => Except.error (CacheError.Custom e)
        | Except.ok _ => integrityScan lookup_song rest
      | none => integrityScan lookup_song rest
    | _ => integrityScan lookup_song rest

/-- `Gdcf::integrity` (src/gdcf/src/lib.rs, lines 123-159): the outcome of the
returned future — either the first non-miss cache error wrapped in
`GdcfError::Cache`, or the list of issued follow-up requests (empty meaning
the future resolves immediately through the no-request branch) together with
the response passed through unchanged. -/
def integrity {A E : Type}
    (lookup_song : Nat → Except (CacheError E) NewgroundsSong)
    (response : List GDObject) :
    Except (GdcfError A E) (List LevelsRequest × List GDObject) :=
  match integrityScan lookup_song response with
  | Except.error e => Except.error (GdcfError.Cache e)
  | Except.ok reqs => Except.ok (reqs, response)

/-- The follow-up request one response object induces, if any: levels with a
present but uncached custom song id yield one request each. -/
def backfillRequest {E : Type}
    (lookup_song : Nat → Except (CacheError E) NewgroundsSong) :
    GDObject → Option LevelsRequest
  | GDObject.Level level =>
    match level.base.custom_song_id with
    | some song_id =>
      match lookup_song song_id with
      | Except.error CacheError.CacheMiss =>
          some (integrity_request level.base.level_id song_id)
      | _ => none
    | none => none
  | _ => none

/-- The first non-miss cache error a response object produces, if any. -/
def hardCacheError {E : Type}
    (lookup_song : Nat → Except (CacheError E) NewgroundsSong) :
    GDObject → Option (CacheError E)
  | GDObject.Level level =>
    match level.base.custom_song_id with
    | some song_id =>
      match lookup_song song_id with
      | Except.error (CacheError.Custom e) => some (CacheError.Custom e)
      | _ => none
    | none => none
  | _ => none

theorem integrityScan_spec {E : Type}
    (lookup_song : Nat → Except (CacheError E) NewgroundsSong)
    (response : List GDObject) :
    integrityScan lookup_song response =
      match response.findSome? (hardCacheError lookup_song) with
      | some e => Except.error e
      | none => Except.ok (response.filterMap (backfillRequest lookup_song)) := by
  induction response with
  | nil => rfl
  | cons obj rest ih =>
    match obj with
    | GDObject.NewgroundsSong s =>
        simpa [integrityScan, List.findSome?_cons, List.filterMap_cons,
          hardCacheError, backfillRequest] using ih
    | GDObject.PartialLevel p =>
        simpa [integrityScan, List.findSome?_cons, List.filterMap_cons,
          hardCacheError, backfillRequest] using ih
    | GDObject.Level level =>
      match hs : level.base.custom_song_id with
      | none =>
          simpa [integrityScan, List.findSome?_cons, List.filterMap_cons,
            hardCacheError, backfillRequest, hs] using ih
      | some song_id =>
        match hl : lookup_song song_id with
        | Except.ok s =>
            simpa [integrityScan, List.findSome?_cons, List.filterMap_cons,
              hardCacheError, backfillRequest, hs, hl] using ih
        | Except.error CacheError.CacheMiss =>
            simp only [integrityScan, List.findSome?_cons, List.filterMap_cons,
              hardCacheError, backfillRequest, hs, hl, ih]
            cases rest.findSome? (hardCacheError lookup_song) <;> rfl
        | Except.error (CacheError.Custom e) =>
            simp [integrityScan, List.findSome?_cons, List.filterMap_cons,
              hardCacheError, backfillRequest, hs, hl]

/-- C9: when no song-cache lookup fails with an error other than `CacheMiss`,
the integrity pass succeeds with the original response unchanged and issues
exactly one follow-up `LevelsRequest` — search by the level's id, filtered by
its custom song id — per `Level` object whose `custom_song_id` is present but
misses in the song cache (so it issues none, resolving immediately, exactly
when no such level exists); and the first lookup error other than `CacheMiss`
makes the whole pass fail with that error wrapped in a `Cache` error. -/
theorem integrity_spec {A E : Type}
    (lookup_song : Nat → Except (CacheError E) NewgroundsSong)
    (response : List GDObject) :
    (response.findSome? (hardCacheError lookup_song) = none →
      integrity (A := A) lookup_song response =
        Except.ok (response.filterMap (backfillRequest lookup_song), response)) ∧
    (∀ e, response.findSome? (hardCacheError lookup_song) = some e →
      integrity (A := A) lookup_song response = Except.error (GdcfError.Cache e)) := by
  constructor
  · intro h
    unfold integrity
    rw [integrityScan_spec, h]
  · intro e h
    unfold integrity
    rw [integrityScan_spec, h]

/-- C9 witness: the theorem applied to concrete responses and song caches. A
response with one level whose song 7 misses and one whose song 5 is cached
yields exactly the one follow-up request for the missing song; a response
whose lookup fails hard yields the wrapped cache error. -/
theorem integrity_spec_witness :
    integrity (A := Unit) (E := Unit)
        (fun sid => if sid = 5 then Except.ok ⟨5⟩ else Except.error CacheError.CacheMiss)
        [GDObject.Level ⟨⟨42, some 7⟩⟩, GDObject.Level ⟨⟨43, some 5⟩⟩,
         GDObject.PartialLevel ⟨44, some 7⟩] =
      Except.ok ([integrity_request 42 7],
        [GDObject.Level ⟨⟨42, some 7⟩⟩, GDObject.Level ⟨⟨43, some 5⟩⟩,
         GDObject.PartialLevel ⟨44, some 7⟩]) ∧
    integrity (A := Unit) (E := Nat)
        (fun _ => Except.error (CacheError.Custom 3))
        [GDObject.Level ⟨⟨42, some 7⟩⟩] =
      Except.error (GdcfError.Cache (CacheError.Custom 3)) :=
  ⟨(integrity_spec _ _).1 rfl, (integrity_spec _ _).2 (CacheError.Custom 3) rfl⟩

/- ### Level password parsing (src/gdcf_parse/src/level.rs) -/

/-- Modelled from the spec: `base64::DecodeError` of the base64 crate
(external); three failure kinds — a byte outside the URL-safe alphabet, a
length that no valid encoding has, and a final symbol with non-zero unused
bits. -/
inductive DecodeError where
  | InvalidByte
  | InvalidLength
  | InvalidLastSymbol
deriving DecidableEq

/-- The value of one character of the URL-safe base64 alphabet
(`A-Z a-z 0-9 - _`). -/
def b64Val (c : Char) : Option Nat :=
  if 65 ≤ c.toNat ∧ c.toNat ≤ 90 then some (c.toNat - 65)
  else if 97 ≤ c.toNat ∧ c.toNat ≤ 122 then some (c.toNat - 97 + 26)
  else if 48 ≤ c.toNat ∧ c.toNat ≤ 57 then some (c.toNat - 48 + 52)
  else if c = '-' then some 62
  else if c = '_' then some 63
  else none

/-- Strip up to two trailing padding characters. -/
def stripPadding (l : List Char) : List Char :=
  match l.reverse with
  | '=' :: '=' :: rest => rest.reverse
  | '=' :: rest => rest.reverse
  | _ => l

/-- Map every character to its alphabet value, failing on the first character
outside the alphabet. -/
def b64Vals : List Char → Except DecodeError (List Nat)
  | [] => Except.ok []
  | c :: rest =>
    match b64Val c with
    | none => Except.error DecodeError.InvalidByte
    | some v => (b64Vals rest).map (fun vs => v :: vs)

/-- Reassemble 6-bit groups into bytes: four symbols give three bytes, a final
pair or triple gives one or two bytes (their unused low bits must be zero), a
lone trailing symbol is an invalid length. -/
def b64Chunks : List Nat → Except DecodeError (List Nat)
  | [] => Except.ok []
  | [_] => Except.error DecodeError.InvalidLength
  | [a, b] =>
    if b % 16 = 0 then Except.ok [a * 4 + b / 16]
    else Except.error DecodeError.InvalidLastSymbol
  | [a, b, c] =>
    if c % 4 = 0 then Except.ok [a * 4 + b / 16, b % 16 * 16 + c / 4]
    else Except.error DecodeError.InvalidLastSymbol
  | a :: b :: c :: d :: rest =>
    (b64Chunks rest).map
      (fun bytes => (a * 4 + b / 16) :: (b % 16 * 16 + c / 4) :: (c % 4 * 64 + d) :: bytes)

/-- Modelled from the spec: `b64_decode_string` of `gdcf_parse::util`
(src/gdcf_parse/src/util.rs is not in src/): URL-safe base64 decoding of the
input to a byte sequence, as by `base64::decode_config(.., URL_SAFE)`; the
decoded bytes are taken directly as the resulting string's character
sequence. -/
def b64_decode_string (chars : List Char) : Except DecodeError (List Nat) :=
  (b64Vals (stripPadding chars)).bind b64Chunks

/-- Modelled from the spec: `xor_decrypt` of `gdcf_parse::util`
(src/gdcf_parse/src/util.rs is not in src/): each byte of the input xored with
the corresponding byte of the cyclically repeated key. -/
def xorDecryptAux (key : List Nat) : Nat → List Nat → List Nat
  | _, [] => []
  | i, b :: bs => (b ^^^ key.getD (i % key.length) 0) :: xorDecryptAux key (i + 1) bs

def xor_decrypt (bytes key : List Nat) : List Nat := xorDecryptAux key 0 bytes

/-- The bytes of the xor key `"26364"` used by `level_password`. -/
def gdKey : List Nat := [50, 54, 51, 54, 52]

/-- The UTF-8 byte length of the string Rust builds from the decrypted
character values (each value is below 256: one byte below 128, two bytes
otherwise). Rust's `String::len`, which `level_password` compares against 1,
counts these bytes. -/
def utf8Len (cs : List Nat) : Nat :=
  (cs.map (fun c => if c < 128 then 1 else 2)).sum

/-- The outcome of `level_password`: a parsed password, a decode error, or the
panic the source reaches through `decrypted.remove(0)` on an empty string. -/
inductive LevelPasswordResult where
  | ok (p : Password)
  | err (e : DecodeError)
  | panicked
deriving DecidableEq

/-- `level_password` from src/gdcf_parse/src/level.rs (lines 43-58): `"0"`
parses to `NoCopy`; anything else is base64-decoded (errors propagate) and
xor-decrypted with `"26364"`; a one-byte decryption is `FreeCopy`, otherwise
the first character is removed — a panic when the decryption is empty — and
the rest is the copy password. -/
def level_password (encrypted : String) : LevelPasswordResult :=
  if encrypted = "0" then LevelPasswordResult.ok Password.NoCopy
  else
    match b64_decode_string encrypted.data with
    | Except.error e => LevelPasswordResult.err e
    | Except.ok decoded =>
      let decrypted := xor_decrypt decoded gdKey
      if utf8Len decrypted = 1 then LevelPasswordResult.ok Password.FreeCopy
      else
        match decrypted with
        | [] => LevelPasswordResult.panicked
        | _ :: rest => LevelPasswordResult.ok (Password.PasswordCopy rest)

/-- C10 counterexample: the empty string is valid URL-safe base64 (it decodes
to zero bytes), so its xor-decryption is the empty string, whose byte length
is not 1 — and the source then calls `decrypted.remove(0)` on an empty
string, which panics. `level_password` is not total: it panics on `""`. -/
theorem level_password_cex : level_password "" = LevelPasswordResult.panicked := by
  decide

/-- C10 amended: `level_password` returns `Ok(NoCopy)` on `"0"`, a
`DecodeError` on any other input that is not valid URL-safe base64, and
`Ok(FreeCopy)` or `Ok(PasswordCopy ..)` on any other input whose base64
decoding is non-empty; it panics exactly on the inputs other than `"0"` whose
base64 decoding is empty (so whose xor-decryption is the empty string), e.g.
the empty input. -/
theorem level_password_total (s : String) :
    (s = "0" → level_password s = LevelPasswordResult.ok Password.NoCopy) ∧
    (∀ e, s ≠ "0" → b64_decode_string s.data = Except.error e →
      level_password s = LevelPasswordResult.err e) ∧
    (∀ b bs, s ≠ "0" → b64_decode_string s.data = Except.ok (b :: bs) →
      (level_password s = LevelPasswordResult.ok Password.FreeCopy ∨
       ∃ pw, level_password s = LevelPasswordResult.ok (Password.PasswordCopy pw))) ∧
    (level_password s = LevelPasswordResult.panicked ↔
      (s ≠ "0" ∧ b64_decode_string s.data = Except.ok [])) := by
  by_cases h : s = "0"
  · refine ⟨fun _ => by simp [level_password, h], fun e hne => absurd h hne,
      fun b bs hne => absurd h hne, ?_⟩
    simp [level_password, h]
  · refine ⟨fun h0 => absurd h0 h, ?_, ?_, ?_⟩
    · intro e _ hd
      simp [level_password, h, hd]
    · intro b bs _ hd
      obtain ⟨x, xs, hx⟩ : ∃ x xs, xor_decrypt (b :: bs) gdKey = x :: xs := ⟨_, _, rfl⟩
      simp only [level_password, if_neg h, hd, hx]
      by_cases hl : utf8Len (x :: xs) = 1
      · left
        simp [hl]
      · right
        exact ⟨xs, by simp [hl]⟩
    · constructor
      · intro hp
        refine ⟨h, ?_⟩
        by_contra hne
        match hd : b64_decode_string s.data with
        | Except.error e => simp [level_password, h, hd] at hp
        | Except.ok [] => exact hne hd
        | Except.ok (b :: bs) =>
          obtain ⟨x, xs, hx⟩ : ∃ x xs, xor_decrypt (b :: bs) gdKey = x :: xs :=
            ⟨_, _, rfl⟩
          simp only [level_password, if_neg h, hd, hx] at hp
          by_cases hl : utf8Len (x :: xs) = 1
          · simp [hl] at hp
          · simp [hl] at hp
      · rintro ⟨-, hd⟩
        simp [level_password, h, hd, xor_decrypt, xorDecryptAux, utf8Len]

/-- C10 witness: the amended theorem applied at concrete inputs — the literal
`"0"`, an input that is not base64 (`"!"`), and an input decoding to a
non-empty byte string (`"UULx"`) — with every hypothesis discharged by
evaluation. -/
theorem level_password_total_witness :
    level_password "0" = LevelPasswordResult.ok Password.NoCopy ∧
    level_password "!" = LevelPasswordResult.err DecodeError.InvalidByte ∧
    (level_password "UULx" = LevelPasswordResult.ok Password.FreeCopy ∨
     ∃ pw, level_password "UULx" = LevelPasswordResult.ok (Password.PasswordCopy pw)) :=
  ⟨(level_password_total "0").1 rfl,
   (level_password_total "!").2.1 DecodeError.InvalidByte (by decide) rfl,
   (level_password_total "UULx").2.2.1 81 [66, 241] (by decide) rfl⟩

/-- C1 witness: the amended roundtrip theorem applied at a concrete partial
level, an empty concrete state and a concrete resolved level. -/
theorem upgrade_downgrade_roundtrip_witness :
    ∃ b f, samplePartialLevel.upgrade
        (UpgradeQuery.One (none : Option Unit) (some sampleLevel)) = some (b, f) ∧
      b.downgrade f = some (samplePartialLevel, UpgradeQuery.One none (some sampleLevel)) :=
  upgrade_downgrade_roundtrip samplePartialLevel none sampleLevel

/-- C2 witness: polling a concrete `Outdated` future yields the same outcome
whatever stale entry is stored; the theorem applied with two different
entries. -/
theorem outdated_poll_delegates_witness :
    (ProcessRequestFuture.poll (fun f => (f, f))
        ⟨(), true, ProcessRequestFutureState.Outdated (R := Unit) 0
          (Except.ok (Async.ready 5) : Except Unit (Async Nat))⟩).1 =
      (ProcessRequestFuture.poll (fun f => (f, f))
        ⟨(), true, ProcessRequestFutureState.Outdated (R := Unit) 1
          (Except.ok (Async.ready 5) : Except Unit (Async Nat))⟩).1 :=
  (outdated_poll_delegates (fun f => (f, f)) () true 0 1
    (Except.ok (Async.ready 5)) id).2.1

/-- C3 witness: the theorem applied at a concrete fresh entry. -/
theorem uptodate_poll_once_then_panics_witness :
    ProcessRequestFuture.poll (fun f => (f, f))
        ⟨(), false, ProcessRequestFutureState.UpToDate
          (F := Except Unit (Async Nat)) (some 3) ()⟩ =
      (PollOutcome.ready 3,
       ⟨(), false, ProcessRequestFutureState.UpToDate none ()⟩) :=
  (uptodate_poll_once_then_panics (fun f => (f, f)) () false 3 ()).1

/-- C4 witness: two concrete requests that differ only in their base feed
equal data; the theorem's iff applied with the field equalities discharged. -/
theorem hash_excludes_base_witness :
    levelRequestHashData ⟨⟨0, 0, ""⟩, 5, true, false⟩ =
      levelRequestHashData ⟨BaseRequest.default, 5, true, false⟩ :=
  (hash_excludes_base_includes_all_semantic_fields.2.2.1
    ⟨⟨0, 0, ""⟩, 5, true, false⟩ ⟨BaseRequest.default, 5, true, false⟩).mpr
    ⟨rfl, rfl, rfl⟩

/-- C7 witness: peeking a concrete `Uncached` future is a no-op. -/
theorem peek_updates_entry_only_witness :
    ProcessRequestFuture.peek (E := Unit) (fun x => Except.ok (x + 1))
        ⟨(), false, ProcessRequestFutureState.Uncached (R := Unit) (V := Nat)
          (Except.error () : Except Unit (Async Nat))⟩ =
      Except.ok ⟨(), false, ProcessRequestFutureState.Uncached (Except.error ())⟩ :=
  (peek_updates_entry_only (fun x => Except.ok (x + 1)) () false 0
    (Except.error ()) ()).2.2.1

/-- C8 witness: the classification applied at a concrete already-resolved
query. -/
theorem process_query_result_classification_witness :
    process_query_result (M := Unit) (E := Unit)
        (UpgradeQuery.One none (some sampleLevel)) =
      Except.ok (UpgradeQuery.One none (some sampleLevel)) :=
  (process_query_result_classification (M := Unit) (E := Unit)).1 sampleLevel
